import Mathlib

/-!
A shallow embedding of the EDDBlink import plugin (`eddblink_plug.py`) and proofs
about its reconciliation, freshness-gate and orchestration logic.

Timestamps: the source stores `modified` columns as `'%Y-%m-%d %H:%M:%S'` strings
produced from integer epoch seconds and converts them back with
`strptime`/`timegm`, a round trip that is the identity on the epoch value; all
timestamps are therefore modelled directly as `Nat` epoch seconds.

Tables are modelled as `List` of row structures; `INSERT` appends, `UPDATE` maps
over the rows matching the key, `SELECT ... fetchone()` is `List.find?`; an
`INSERT` into a table whose primary key is already present raises
`sqlite3.IntegrityError`, which the per-kind import loops either catch (turning
the insert into an update) or, in `importStations`, do not catch at all.
-/

namespace EDDBlink

/-! ## Run orchestrator: options, implication resolution, pass order -/

/-- The plugin's option switches (`self.options`): a field is `true` exactly when
the corresponding option is present in the option dict. -/
structure Options where
  item : Bool := false
  system : Bool := false
  station : Bool := false
  ship : Bool := false
  shipvend : Bool := false
  upgrade : Bool := false
  upvend : Bool := false
  listings : Bool := false
  all : Bool := false
  clean : Bool := false
  skipvend : Bool := false
  force : Bool := false
  fallback : Bool := false
  deriving DecidableEq

/-- `run`, step 1: the "default listings" loop — `default` becomes true when an
option other than `force`, `fallback`, `skipvend` was passed, and then the
listings target is enabled. -/
def applyDefaultListings (o : Options) : Options :=
  let dflt := o.item || o.system || o.station || o.ship || o.shipvend || o.upgrade ||
    o.upvend || o.listings || o.all || o.clean
  if dflt then { o with listings := true } else o

/-- `run`, clean branch: a clean run enables `all` and `force`. -/
def applyClean (o : Options) : Options :=
  if o.clean then { o with all := true, force := true } else o

/-- `run`: listings implies item and station. -/
def applyListingsImplied (o : Options) : Options :=
  if o.listings then { o with item := true, station := true } else o

/-- `run`: shipvend implies ship and station. -/
def applyShipvendImplied (o : Options) : Options :=
  if o.shipvend then { o with ship := true, station := true } else o

/-- `run`: upvend implies upgrade and station. -/
def applyUpvendImplied (o : Options) : Options :=
  if o.upvend then { o with upgrade := true, station := true } else o

/-- `run`: station implies system. -/
def applyStationImplied (o : Options) : Options :=
  if o.station then { o with system := true } else o

/-- `run`: the all meta-target selects every target. -/
def applyAll (o : Options) : Options :=
  if o.all then
    { o with item := true, ship := true, shipvend := true, station := true,
             system := true, upgrade := true, upvend := true, listings := true }
  else o

/-- `run`: skipvend finally clears both vendor targets. -/
def applySkipvend (o : Options) : Options :=
  if o.skipvend then { o with shipvend := false, upvend := false } else o

/-- Option resolution performed by `run`, in the source's exact order. -/
def resolveOptions (o : Options) : Options :=
  applySkipvend (applyAll (applyStationImplied (applyUpvendImplied
    (applyShipvendImplied (applyListingsImplied (applyClean (applyDefaultListings o)))))))

/-- The reconciliation passes `run` can execute, in source order. -/
inductive PassKind where
  | upgradePass
  | shipPass
  | systemPass
  | stationPass
  | itemPass
  | listingsPass
  | liveListingsPass
  deriving DecidableEq

/-- Outcome of each `downloadFile` call of a run (the value the call returned),
treated as an oracle input to the orchestrator model. -/
structure Staleness where
  upgrades : Bool
  ships : Bool
  systems : Bool
  stations : Bool
  commodities : Bool
  listings : Bool
  liveListings : Bool
  deriving DecidableEq

/-- The sequence of reconciliation passes `run` executes, in program order: each
selected kind runs when its file was downloaded or `force` is set, in the fixed
textual order upgrade, ship, system, station, item, then the two listings
passes after the exports. -/
def runPasses (o : Options) (d : Staleness) : List PassKind :=
  (if o.upgrade && (d.upgrades || o.force) then [PassKind.upgradePass] else []) ++
  ((if o.ship && (d.ships || o.force) then [PassKind.shipPass] else []) ++
  ((if o.system && (d.systems || o.force) then [PassKind.systemPass] else []) ++
  ((if o.station && (d.stations || o.force) then [PassKind.stationPass] else []) ++
  ((if o.item && (d.commodities || o.force) then [PassKind.itemPass] else []) ++
  ((if o.listings && (d.listings || o.force) then [PassKind.listingsPass] else []) ++
  (if o.listings && (d.liveListings || o.force) then [PassKind.liveListingsPass] else []))))))

/-- The dependency order the spec fixes for the passes. -/
def canonicalPassOrder : List PassKind :=
  [PassKind.upgradePass, PassKind.shipPass, PassKind.systemPass, PassKind.stationPass,
   PassKind.itemPass, PassKind.listingsPass, PassKind.liveListingsPass]

/-! ## Freshness gate (`downloadFile`) -/

/-- The source files `downloadFile` is called on. -/
inductive FileTag where
  | commoditiesFile
  | systemsFile
  | stationsFile
  | upgradesFile
  | listingsFile
  | liveListingsFile
  | shipsFile
  deriving DecidableEq

/-- One `downloadFile` call's inputs: the file, the fallback option at call time,
whether the primary mirror probe succeeds, and the local/remote file metadata. -/
structure DlInput where
  tag : FileTag
  fallbackOpt : Bool
  mirrorUp : Bool
  hasLocal : Bool
  localMtime : Nat
  remoteModified : Nat
  deriving DecidableEq

/-- One `downloadFile` call's outcome: the returned flag, whether
`transfers.download` ran, and the fallback option afterwards. -/
structure DlResult where
  updated : Bool
  transferred : Bool
  fallbackAfter : Bool
  deriving DecidableEq

/-- `downloadFile`: the ship catalog (a URL without Last-Modified metadata) is
always fetched; otherwise the mirror probe may switch on fallback, fallback mode
refuses the live-listings file, and a local copy at least as new as the remote
Last-Modified timestamp suppresses the fetch. The function has no force input. -/
def downloadFile (i : DlInput) : DlResult :=
  if i.tag = FileTag.shipsFile then
    { updated := true, transferred := true, fallbackAfter := i.fallbackOpt }
  else
    let fb := i.fallbackOpt || !i.mirrorUp
    if fb = true ∧ i.tag = FileTag.liveListingsFile then
      { updated := false, transferred := false, fallbackAfter := fb }
    else if i.hasLocal = true ∧ i.remoteModified ≤ i.localMtime then
      { updated := false, transferred := false, fallbackAfter := fb }
    else
      { updated := true, transferred := true, fallbackAfter := fb }

/-- The freshness rule exactly as claim C7 words it (spec-side definition, kept
for comparison against `downloadFile`): fetch when no local copy exists, or the
local mtime is older than the remote timestamp, or the caller forces it, with
the ship catalog always treated as stale. -/
def claimedFetchGate (forceOpt : Bool) (i : DlInput) : Bool :=
  if i.tag = FileTag.shipsFile then true
  else !i.hasLocal || decide (i.localMtime < i.remoteModified) || forceOpt

/-- C7 counterexample input: force is conceptually set, the bulk listings file
has an up-to-date local copy. -/
def c7Input : DlInput :=
  { tag := FileTag.listingsFile, fallbackOpt := false, mirrorUp := true,
    hasLocal := true, localMtime := 1000, remoteModified := 1000 }

/-- Concrete ship-catalog input for the C7 witness. -/
def c7ShipsInput : DlInput :=
  { tag := FileTag.shipsFile, fallbackOpt := false, mirrorUp := true,
    hasLocal := true, localMtime := 5, remoteModified := 0 }

/-- Concrete fallback-mode input for the C10 witness. -/
def c10Input : DlInput :=
  { tag := FileTag.liveListingsFile, fallbackOpt := true, mirrorUp := true,
    hasLocal := false, localMtime := 0, remoteModified := 7 }

/-- Concrete download-outcome record for the C10 witness. -/
def c10Staleness : Staleness :=
  { upgrades := false, ships := false, systems := false, stations := false,
    commodities := false, listings := true, liveListings := false }

/-! ## Market listings (`importListings`, StationItem table) -/

/-- One parsed row of `listings.csv` / `listings-live.csv`; an empty bracket
column is `none` (the source turns it into -1). -/
structure ListingRec where
  station_id : Nat
  commodity_id : Nat
  collected_at : Nat
  sell_price : Nat
  demand : Nat
  demand_bracket : Option Int
  buy_price : Nat
  supply : Nat
  supply_bracket : Option Int
  deriving DecidableEq

/-- A stored StationItem row. -/
structure StationItemRow where
  station_id : Nat
  item_id : Nat
  modified : Nat
  demand_price : Nat
  demand_units : Nat
  demand_level : Int
  supply_price : Nat
  supply_units : Nat
  supply_level : Int
  from_live : Nat
  deriving DecidableEq

/-- Key test for a StationItem row. -/
def siKey (s it : Nat) (r : StationItemRow) : Bool :=
  r.station_id == s && r.item_id == it

/-- Bracket-column decoding: empty column means -1. -/
def levelOf (b : Option Int) : Int :=
  match b with
  | none => -1
  | some v => v

/-- The row an insert (or a full update) of one listings record produces:
all market fields from the record, `from_live` 0. -/
def mkListingRow (rec : ListingRec) : StationItemRow :=
  { station_id := rec.station_id, item_id := rec.commodity_id,
    modified := rec.collected_at,
    demand_price := rec.sell_price, demand_units := rec.demand,
    demand_level := levelOf rec.demand_bracket,
    supply_price := rec.buy_price, supply_units := rec.supply,
    supply_level := levelOf rec.supply_bracket,
    from_live := 0 }

/-- `importListings` loop body: look up the stored row by (station_id, item_id);
when present with an equal timestamp and the source file is the bulk dump,
reset `from_live` to 0; when present and strictly newer, overwrite every market
field with `from_live` 0; when absent, insert with `from_live` 0. Returns the
table and the number of write statements executed. -/
def importListingRecord (isBulkDump : Bool) (tbl : List StationItemRow)
    (rec : ListingRec) : List StationItemRow × Nat :=
  match tbl.find? (siKey rec.station_id rec.commodity_id) with
  | some row =>
      let tbl1 := if rec.collected_at = row.modified ∧ isBulkDump = true then
          tbl.map (fun r => if siKey rec.station_id rec.commodity_id r then
            { r with from_live := 0 } else r)
        else tbl
      let w1 : Nat := if rec.collected_at = row.modified ∧ isBulkDump = true then 1 else 0
      if rec.collected_at > row.modified then
        (tbl1.map (fun r => if siKey rec.station_id rec.commodity_id r then
          mkListingRow rec else r), w1 + 1)
      else (tbl1, w1)
  | none => (tbl ++ [mkListingRow rec], 1)

/-- C1 counterexample stored row: a live-sourced listing (`from_live` 1). -/
def c1Row : StationItemRow :=
  { station_id := 5, item_id := 7, modified := 100,
    demand_price := 10, demand_units := 20, demand_level := 2,
    supply_price := 30, supply_units := 40, supply_level := 3, from_live := 1 }

/-- C1 counterexample incoming bulk-dump record with the identical timestamp. -/
def c1Rec : ListingRec :=
  { station_id := 5, commodity_id := 7, collected_at := 100,
    sell_price := 10, demand := 20, demand_bracket := some 2,
    buy_price := 30, supply := 40, supply_bracket := some 3 }

/-! ## Systems (`importSystems`) -/

/-- One parsed line of `systems_populated.jsonl`. Coordinates are carried
opaquely (the reconciler never computes on them). -/
structure SystemRec where
  id : Nat
  name : String
  x : Int
  y : Int
  z : Int
  updated_at : Nat
  deriving DecidableEq

/-- A stored System row. -/
structure SystemRow where
  system_id : Nat
  name : String
  pos_x : Int
  pos_y : Int
  pos_z : Int
  modified : Nat
  deriving DecidableEq

/-- The System row written for a record. -/
def mkSystemRow (rec : SystemRec) : SystemRow :=
  { system_id := rec.id, name := rec.name, pos_x := rec.x, pos_y := rec.y,
    pos_z := rec.z, modified := rec.updated_at }

/-- System table plus the change-tracker flag and write counter of one pass. -/
structure SystemsState where
  table : List SystemRow
  flag : Bool
  writes : Nat
  deriving DecidableEq

/-- `importSystems` loop body: look up the stored row by system_id; update all
fields when the incoming `updated_at` is strictly newer, insert when absent,
otherwise do nothing; the change-tracker flag is set on every write. -/
def importSystemRecord (s : SystemsState) (rec : SystemRec) : SystemsState :=
  match s.table.find? (fun r => r.system_id == rec.id) with
  | some row =>
      if rec.updated_at > row.modified then
        { table := s.table.map (fun r => if r.system_id == rec.id then mkSystemRow rec else r),
          flag := true, writes := s.writes + 1 }
      else s
  | none =>
      { table := s.table ++ [mkSystemRow rec], flag := true, writes := s.writes + 1 }

section KeyedUpsert

variable {ρ α : Type} (key : ρ → Nat) (rkey : α → Nat) (upd : α → ρ → ρ) (ins : α → ρ)

/-- The UPDATE statement's effect: rewrite the rows carrying the record's key. -/
def updateMatching (db : List ρ) (a : α) : List ρ :=
  db.map (fun r => if key r == rkey a then upd a r else r)

/-- INSERT a record, or on key conflict UPDATE the rows with its key. -/
def upsertByKey (db : List ρ) (a : α) : List ρ :=
  if (db.find? (fun r => key r == rkey a)).isSome then updateMatching key rkey upd db a
  else db ++ [ins a]

/-- A full upsert pass over a record list. -/
def upsertPass (db : List ρ) (l : List α) : List ρ :=
  l.foldl (upsertByKey key rkey upd ins) db

end KeyedUpsert

/-! ## String replacement

Python's `str.replace` (all non-overlapping occurrences, left to right),
modelled by a fuel-based structural recursion over the character list so that
it evaluates inside the kernel. -/

/-- Replace every non-overlapping occurrence of `pat` by `rep`, scanning left
to right; `fuel` bounds the scan (one unit per scanned position). -/
def replaceChars (pat rep : List Char) : Nat → List Char → List Char
  | 0, l => l
  | _, [] => []
  | fuel + 1, c :: rest =>
      if pat ≠ [] ∧ pat.isPrefixOf (c :: rest) then
        rep ++ replaceChars pat rep fuel ((c :: rest).drop pat.length)
      else c :: replaceChars pat rep fuel rest

/-- Python's `s.replace(pat, rep)`. -/
def strReplace (s pat rep : String) : String :=
  { data := replaceChars pat.data rep.data s.data.length s.data }

/-! ## Upgrades (`importUpgrades`) -/

/-- A stored Upgrade row. -/
structure UpgradeRow where
  upgrade_id : Nat
  name : String
  weight : Int
  cost : Int
  deriving DecidableEq

/-- A stored Ship row. -/
structure ShipRow where
  ship_id : Nat
  name : String
  cost : Int
  fdev_id : Nat
  deriving DecidableEq

/-- One parsed line of `stations.jsonl`. A null `distance_to_star`,
`shipyard_updated_at` or `outfitting_updated_at` is 0 (the source tests Python
falsiness); a null `max_landing_pad_size` is the empty string. -/
structure StationRec where
  id : Nat
  name : String
  system_id : Nat
  distance_to_star : Nat
  has_blackmarket : Bool
  max_landing_pad_size : String
  has_market : Bool
  has_shipyard : Bool
  updated_at : Nat
  has_outfitting : Bool
  has_rearm : Bool
  has_refuel : Bool
  has_repair : Bool
  is_planetary : Bool
  shipyard_updated_at : Nat
  outfitting_updated_at : Nat
  selling_ships : List String
  selling_modules : List Nat
  deriving DecidableEq

/-- A stored Station row; facility flags hold the source's `'Y'`/`'N'` marker
strings. -/
structure StationRow where
  station_id : Nat
  name : String
  system_id : Nat
  ls_from_star : Nat
  blackmarket : String
  max_pad_size : String
  market : String
  shipyard : String
  modified : Nat
  outfitting : String
  rearm : String
  refuel : String
  repair : String
  planetary : String
  deriving DecidableEq

/-- Boolean provider flag to the two-valued marker. -/
def ynOf (b : Bool) : String :=
  if b then "Y" else "N"

/-- Landing-pad normalization: falsy or literal `'None'` becomes `'?'`. -/
def padOf (s : String) : String :=
  if s ≠ "" ∧ s ≠ "None" then s else "?"

/-- The Station row written for a record. -/
def mkStationRow (rec : StationRec) : StationRow :=
  { station_id := rec.id, name := rec.name, system_id := rec.system_id,
    ls_from_star := rec.distance_to_star,
    blackmarket := ynOf rec.has_blackmarket,
    max_pad_size := padOf rec.max_landing_pad_size,
    market := ynOf rec.has_market, shipyard := ynOf rec.has_shipyard,
    modified := rec.updated_at, outfitting := ynOf rec.has_outfitting,
    rearm := ynOf rec.has_rearm, refuel := ynOf rec.has_refuel,
    repair := ynOf rec.has_repair, planetary := ynOf rec.is_planetary }

/-- A stored ShipVendor row. -/
structure ShipVendorRow where
  ship_id : Nat
  station_id : Nat
  modified : Nat
  deriving DecidableEq

/-- A stored UpgradeVendor row; `cost` is the subselect snapshot from Upgrade,
NULL when the module id is unknown. -/
structure UpgradeVendorRow where
  upgrade_id : Nat
  station_id : Nat
  cost : Option Int
  modified : Nat
  deriving DecidableEq

/-- The uncaught exceptions that abort an `importStations` pass: the
`fetchone()[0]` TypeError when a station's system is absent, and the
IntegrityError of a vendor INSERT (unresolvable ship name giving a NULL key,
or a duplicate vendor key), which unlike in the other import loops is not
wrapped in try/except. -/
inductive StationImportError where
  | missingSystem (system_id : Nat)
  | shipNotFound (name : String)
  | duplicateVendorKey
  deriving DecidableEq

/-- Station, ShipVendor and UpgradeVendor tables plus their change-tracker
flags and the write counter of one pass. -/
structure StationsState where
  stations : List StationRow
  shipVendors : List ShipVendorRow
  upgradeVendors : List UpgradeVendorRow
  stationFlag : Bool
  shipVendorFlag : Bool
  upgradeVendorFlag : Bool
  writes : Nat
  deriving DecidableEq

/-- Shipyard-listing name normalization applied before the Ship lookup. -/
def normalizeShipName (n : String) : String :=
  strReplace (strReplace n (" MK ") (" Mk ")) (" Mk ") (" Mk. ")

/-- The shipyard timestamp actually used: a falsy `shipyard_updated_at` is
replaced by the station's own `updated_at`. -/
def effectiveShipyardTS (rec : StationRec) : Nat :=
  if rec.shipyard_updated_at = 0 then rec.updated_at else rec.shipyard_updated_at

/-- The outfitting timestamp actually used: a falsy `outfitting_updated_at` is
replaced by the station's own `updated_at`. -/
def effectiveOutfittingTS (rec : StationRec) : Nat :=
  if rec.outfitting_updated_at = 0 then rec.updated_at else rec.outfitting_updated_at

/-- The stored ShipVendor timestamp for a station: the first matching row's
`modified`, 0 when the station has no rows. -/
def storedShipVendorTS (vendors : List ShipVendorRow) (station_id : Nat) : Nat :=
  match vendors.find? (fun v => v.station_id == station_id) with
  | some v => v.modified
  | none => 0

/-- The stored UpgradeVendor timestamp for a station: the first matching row's
`modified`, 0 when the station has no rows. -/
def storedUpgradeVendorTS (vendors : List UpgradeVendorRow) (station_id : Nat) : Nat :=
  match vendors.find? (fun v => v.station_id == station_id) with
  | some v => v.modified
  | none => 0

/-- The ship_id a shipyard-listing name resolves to (the subselect on Ship by
normalized name); 0 is a placeholder for the NULL of an unknown name, which
makes the INSERT raise instead of using this value. -/
def resolvedShipId (ships : List ShipRow) (nm : String) : Nat :=
  match ships.find? (fun r => r.name == normalizeShipName nm) with
  | some r => r.ship_id
  | none => 0

/-- Insert the replacement ShipVendor rows one by one; an unresolvable name or
a duplicate (ship_id, station_id) key raises. -/
def insertShipVendors (ships : List ShipRow) (station_id modified : Nat) :
    List ShipVendorRow → List String → Except StationImportError (List ShipVendorRow)
  | vendors, [] => Except.ok vendors
  | vendors, shipName :: rest =>
      let nm := normalizeShipName shipName
      match ships.find? (fun r => r.name == nm) with
      | none => Except.error (StationImportError.shipNotFound nm)
      | some shipRow =>
          if (vendors.find? (fun v =>
              v.ship_id == shipRow.ship_id && v.station_id == station_id)).isSome then
            Except.error StationImportError.duplicateVendorKey
          else
            insertShipVendors ships station_id modified
              (vendors ++ [{ ship_id := shipRow.ship_id, station_id := station_id,
                             modified := modified }]) rest

/-- Insert the replacement UpgradeVendor rows one by one; a duplicate
(upgrade_id, station_id) key raises; the cost subselect yields NULL for an
unknown module id. -/
def insertUpgradeVendors (upgrades : List UpgradeRow) (station_id modified : Nat) :
    List UpgradeVendorRow → List Nat → Except StationImportError (List UpgradeVendorRow)
  | vendors, [] => Except.ok vendors
  | vendors, uid :: rest =>
      if (vendors.find? (fun v =>
          v.upgrade_id == uid && v.station_id == station_id)).isSome then
        Except.error StationImportError.duplicateVendorKey
      else
        insertUpgradeVendors upgrades station_id modified
          (vendors ++ [{ upgrade_id := uid, station_id := station_id,
                         cost := (upgrades.find? (fun u => u.upgrade_id == uid)).map
                           (fun u => u.cost),
                         modified := modified }]) rest

/-- Station-table part of the `importStations` loop body: the freshness-gated
upsert of the station row. -/
def stationRowStep (s : StationsState) (rec : StationRec) : StationsState :=
  match s.stations.find? (fun r => r.station_id == rec.id) with
  | some row =>
      if rec.updated_at > row.modified then
        { s with
          stations := s.stations.map
              (fun r => if r.station_id == rec.id then mkStationRow rec else r),
          stationFlag := true,
          writes := s.writes + 1 }
      else s
  | none =>
      { s with
        stations := s.stations ++ [mkStationRow rec],
        stationFlag := true,
        writes := s.writes + 1 }

/-- ShipVendor part of the `importStations` loop body: when the station has a
shipyard and the option is on, and the effective shipyard timestamp strictly
exceeds the stored one, delete every row of the station and insert the
listing's replacement set. -/
def shipVendorStep (shipvend : Bool) (ships : List ShipRow) (s : StationsState)
    (rec : StationRec) : Except StationImportError StationsState :=
  if rec.has_shipyard = true ∧ shipvend = true then
    if effectiveShipyardTS rec > storedShipVendorTS s.shipVendors rec.id then
      let cleared := s.shipVendors.filter (fun v => !(v.station_id == rec.id))
      match insertShipVendors ships rec.id (effectiveShipyardTS rec) cleared
          rec.selling_ships with
      | Except.error e => Except.error e
      | Except.ok vendors =>
          Except.ok { s with
            shipVendors := vendors,
            shipVendorFlag := true,
            writes := s.writes + 1 + rec.selling_ships.length }
    else Except.ok s
  else Except.ok s

/-- UpgradeVendor part of the `importStations` loop body, analogous to the
ShipVendor part. -/
def upgradeVendorStep (upvend : Bool) (upgrades : List UpgradeRow) (s : StationsState)
    (rec : StationRec) : Except StationImportError StationsState :=
  if rec.has_outfitting = true ∧ upvend = true then
    if effectiveOutfittingTS rec > storedUpgradeVendorTS s.upgradeVendors rec.id then
      let cleared := s.upgradeVendors.filter (fun v => !(v.station_id == rec.id))
      match insertUpgradeVendors upgrades rec.id (effectiveOutfittingTS rec) cleared
          rec.selling_modules with
      | Except.error e => Except.error e
      | Except.ok vendors =>
          Except.ok { s with
            upgradeVendors := vendors,
            upgradeVendorFlag := true,
            writes := s.writes + 1 + rec.selling_modules.length }
    else Except.ok s
  else Except.ok s

/-- The full `importStations` loop body: the system-name lookup (which crashes
the pass when the system is absent), the station upsert, then the two vendor
blocks. -/
def importStationRecord (shipvend upvend : Bool) (systems : List SystemRow)
    (ships : List ShipRow) (upgrades : List UpgradeRow) (s : StationsState)
    (rec : StationRec) : Except StationImportError StationsState :=
  match systems.find? (fun r => r.system_id == rec.system_id) with
  | none => Except.error (StationImportError.missingSystem rec.system_id)
  | some _ =>
      match shipVendorStep shipvend ships (stationRowStep s rec) rec with
      | Except.error e => Except.error e
      | Except.ok s2 => upgradeVendorStep upvend upgrades s2 rec

/-- `importStations`: one streaming pass over the stations file; the first
uncaught exception aborts the pass. -/
def importStations (shipvend upvend : Bool) (systems : List SystemRow)
    (ships : List ShipRow) (upgrades : List UpgradeRow) (s : StationsState)
    (recs : List StationRec) : Except StationImportError StationsState :=
  recs.foldlM (importStationRecord shipvend upvend systems ships upgrades) s

/-- The replacement ShipVendor row set claim C4 expects for a station record. -/
def expectedShipVendorRows (ships : List ShipRow) (rec : StationRec) : List ShipVendorRow :=
  rec.selling_ships.map (fun nm =>
    { ship_id := resolvedShipId ships nm, station_id := rec.id,
      modified := effectiveShipyardTS rec })

/-- The replacement UpgradeVendor row set claim C4 expects for a station
record. -/
def expectedUpgradeVendorRows (upgrades : List UpgradeRow) (rec : StationRec) :
    List UpgradeVendorRow :=
  rec.selling_modules.map (fun uid =>
    { upgrade_id := uid, station_id := rec.id,
      cost := (upgrades.find? (fun u => u.upgrade_id == uid)).map (fun u => u.cost),
      modified := effectiveOutfittingTS rec })

/-! ## Categories, items and ui_order (`importCommodities`) -/

/-- One record of `commodities.json` (with its embedded category object). -/
structure CommodityRec where
  id : Nat
  name : String
  category_id : Nat
  average_price : Int
  ed_id : Nat
  is_rare : Bool
  categoryEntryId : Nat
  categoryEntryName : String
  deriving DecidableEq

/-- A stored Category row. -/
structure CategoryRow where
  category_id : Nat
  name : String
  deriving DecidableEq

/-- A stored Item row; `ui_order` is the derived rank column. -/
structure ItemRow where
  item_id : Nat
  name : String
  category_id : Nat
  avg_price : Int
  fdev_id : Nat
  ui_order : Nat
  deriving DecidableEq

/-- The Category row inserted for a record. -/
def insCategory (a : CommodityRec) : CategoryRow :=
  { category_id := a.categoryEntryId, name := a.categoryEntryName }

/-- The Category update clause (writes the name). -/
def updCategory (a : CommodityRec) (_ : CategoryRow) : CategoryRow := insCategory a

/-- The Item row inserted for a record: `ui_order` is not in the INSERT's
column list and takes the schema default 0. -/
def insItem (a : CommodityRec) : ItemRow :=
  { item_id := a.id, name := a.name, category_id := a.category_id,
    avg_price := a.average_price, fdev_id := a.ed_id, ui_order := 0 }

/-- The Item update clause: writes name, category, price and fdev_id but
leaves `ui_order` untouched. -/
def updItem (a : CommodityRec) (r : ItemRow) : ItemRow :=
  { r with
    name := a.name,
    category_id := a.category_id,
    avg_price := a.average_price,
    fdev_id := a.ed_id }

/-- The SELECT's projection: (name, category_id, item_id). -/
def itemTriple (r : ItemRow) : String × Nat × Nat :=
  (r.name, r.category_id, r.item_id)

/-- Code-point lexicographic comparison of character lists — the BINARY
collation SQLite applies to `ORDER BY name`. -/
def charListLe : List Char → List Char → Bool
  | [], _ => true
  | _ :: _, [] => false
  | a :: as, b :: bs =>
      if a.toNat < b.toNat then true
      else if b.toNat < a.toNat then false
      else charListLe as bs

/-- `charListLe` applied to the strings' characters. -/
def strLe (a b : String) : Bool :=
  charListLe a.data b.data

/-- Strict byte-wise comparison: at most, not equivalent. -/
def strLt (a b : String) : Bool :=
  strLe a b && !(strLe b a)

/-- The `ORDER BY category_id, name` ordering on projected triples. -/
def tripleOrder (x y : String × Nat × Nat) : Prop :=
  x.2.1 < y.2.1 ∨ (x.2.1 = y.2.1 ∧ strLe x.1 y.1 = true)

instance : DecidableRel tripleOrder := fun x y => by
  unfold tripleOrder
  infer_instance

instance : IsTotal (String × Nat × Nat) tripleOrder := by
  constructor
  have key : ∀ as bs : List Char, charListLe as bs = true ∨ charListLe bs as = true := by
    intro as
    induction as with
    | nil =>
        intro bs
        exact Or.inl rfl
    | cons a as ih =>
        intro bs
        cases bs with
        | nil => exact Or.inr rfl
        | cons b bs =>
            by_cases h1 : a.toNat < b.toNat
            · exact Or.inl (by simp only [charListLe]; rw [if_pos h1])
            · by_cases h2 : b.toNat < a.toNat
              · exact Or.inr (by simp only [charListLe]; rw [if_pos h2])
              · rcases ih bs with h | h
                · exact Or.inl (by
                    simp only [charListLe]
                    rw [if_neg h1, if_neg h2]
                    exact h)
                · exact Or.inr (by
                    simp only [charListLe]
                    rw [if_neg h2, if_neg h1]
                    exact h)
  intro a b
  unfold tripleOrder
  rcases Nat.lt_trichotomy a.2.1 b.2.1 with h | h | h
  · exact Or.inl (Or.inl h)
  · rcases key a.1.data b.1.data with hn | hn
    · exact Or.inl (Or.inr ⟨h, hn⟩)
    · exact Or.inr (Or.inr ⟨h.symm, hn⟩)
  · exact Or.inr (Or.inl h)

instance : IsTrans (String × Nat × Nat) tripleOrder := by
  constructor
  have key : ∀ as bs cs : List Char, charListLe as bs = true → charListLe bs cs = true →
      charListLe as cs = true := by
    intro as
    induction as with
    | nil =>
        intro bs cs h1 h2
        rfl
    | cons a as ih =>
        intro bs cs h1 h2
        cases bs with
        | nil => exact absurd (show false = true from h1) (by decide)
        | cons b bs =>
            cases cs with
            | nil => exact absurd (show false = true from h2) (by decide)
            | cons c cs =>
                simp only [charListLe] at h1 h2 ⊢
                by_cases hab : a.toNat < b.toNat
                · rw [if_pos hab] at h1
                  by_cases hbc : b.toNat < c.toNat
                  · rw [if_pos (show a.toNat < c.toNat by omega)]
                  · rw [if_neg hbc] at h2
                    by_cases hcb : c.toNat < b.toNat
                    · rw [if_pos hcb] at h2
                      exact absurd h2 (by decide)
                    · rw [if_pos (show a.toNat < c.toNat by omega)]
                · rw [if_neg hab] at h1
                  by_cases hba : b.toNat < a.toNat
                  · rw [if_pos hba] at h1
                    exact absurd h1 (by decide)
                  · rw [if_neg hba] at h1
                    by_cases hbc : b.toNat < c.toNat
                    · rw [if_pos (show a.toNat < c.toNat by omega)]
                    · rw [if_neg hbc] at h2
                      by_cases hcb : c.toNat < b.toNat
                      · rw [if_pos hcb] at h2
                        exact absurd h2 (by decide)
                      · rw [if_neg hcb] at h2
                        rw [if_neg (show ¬a.toNat < c.toNat by omega),
                          if_neg (show ¬c.toNat < a.toNat by omega)]
                        exact ih bs cs h1 h2
  intro a b c hab hbc
  unfold tripleOrder at *
  rcases hab with h1 | ⟨h1, h2⟩ <;> rcases hbc with h3 | ⟨h3, h4⟩
  · exact Or.inl (by omega)
  · exact Or.inl (by omega)
  · exact Or.inl (by omega)
  · exact Or.inr ⟨h1.trans h3, key _ _ _ h2 h4⟩

/-- The ui_order assignment loop: walk the sorted triples keeping the previous
category and the running counter (initially category 0, counter 1); a category
change resets the counter to 1, otherwise it increments; emit (item_id, value)
pairs. -/
def uiAssign : Nat → Nat → List (String × Nat × Nat) → List (Nat × Nat)
  | _, _, [] => []
  | cat_id, ui_order, t :: rest =>
      if t.2.1 ≠ cat_id then (t.2.2, 1) :: uiAssign t.2.1 1 rest
      else (t.2.2, ui_order + 1) :: uiAssign cat_id (ui_order + 1) rest

/-- Run the emitted UPDATE statements against the Item table. -/
def applyUiAssign (items : List ItemRow) (assigns : List (Nat × Nat)) : List ItemRow :=
  assigns.foldl (fun tbl p =>
    tbl.map (fun r => if r.item_id == p.1 then { r with ui_order := p.2 } else r)) items

/-- The ui_order recomputation run after every Item reconciliation pass. -/
def uiOrderPass (items : List ItemRow) : List ItemRow :=
  applyUiAssign items (uiAssign 0 1 (List.insertionSort tripleOrder (items.map itemTriple)))

/-- Category and Item tables plus their change-tracker flags and the write
counter of one pass. -/
structure CommoditiesState where
  categories : List CategoryRow
  items : List ItemRow
  categoryFlag : Bool
  itemFlag : Bool
  writes : Nat
  deriving DecidableEq

/-- `importCommodities`: upsert every category entry, upsert every non-rare
item, recompute `ui_order` for the whole Item table, and unconditionally set
both flags. -/
def importCommodities (s : CommoditiesState) (recs : List CommodityRec) : CommoditiesState :=
  let cats := upsertPass CategoryRow.category_id CommodityRec.categoryEntryId
    updCategory insCategory s.categories recs
  let nonRare := recs.filter (fun a => !a.is_rare)
  let items1 := upsertPass ItemRow.item_id CommodityRec.id updItem insItem s.items nonRare
  let items2 := uiOrderPass items1
  { categories := cats, items := items2, categoryFlag := true, itemFlag := true,
    writes := s.writes + recs.length + nonRare.length + items1.length }

/-- The dense-rank property exactly as claim C8 words it (spec-side definition):
after the pass every item's `ui_order` is one more than the number of items of
its category with a smaller name. -/
def c8ClaimedRankHolds (items : List ItemRow) : Prop :=
  ∀ r ∈ uiOrderPass items, r.ui_order =
    1 + (uiOrderPass items).countP
      (fun q => q.category_id == r.category_id && strLt q.name r.name)

instance (items : List ItemRow) : Decidable (c8ClaimedRankHolds items) := by
  unfold c8ClaimedRankHolds
  infer_instance

/-- C8 counterexample catalog: a single item whose provider category id is 0,
the sentinel initial value of the assignment loop. -/
def c8BadItems : List ItemRow :=
  [{ item_id := 1, name := "X", category_id := 0, avg_price := 3, fdev_id := 9,
     ui_order := 0 }]

/-- The spec's concrete two-item catalog (category 5, names Zinc and
Beryllium), as the Item table state after the upserts. -/
def c8Catalog : List ItemRow :=
  [{ item_id := 10, name := "Zinc", category_id := 5, avg_price := 1, fdev_id := 2,
     ui_order := 0 },
   { item_id := 11, name := "Beryllium", category_id := 5, avg_price := 3, fdev_id := 4,
     ui_order := 0 }]

/-- The Beryllium row after the C8 witness pass (rank 1 in category 5). -/
def c8BerylliumRow : ItemRow :=
  { item_id := 11, name := "Beryllium", category_id := 5, avg_price := 3, fdev_id := 4,
    ui_order := 1 }

/-- The Zinc row after the C8 witness pass (rank 2 in category 5). -/
def c8ZincRow : ItemRow :=
  { item_id := 10, name := "Zinc", category_id := 5, avg_price := 1, fdev_id := 2,
    ui_order := 2 }

/-! ## Concrete inputs for the remaining claims -/

/-- The spec's concrete System scenario: Sol at epoch 1000. -/
def solRow : SystemRow :=
  { system_id := 1, name := "Sol", pos_x := 0, pos_y := 0, pos_z := 0, modified := 1000 }

/-- The stale second record of the spec's System scenario (epoch 999). -/
def solStaleRec : SystemRec :=
  { id := 1, name := "Sol", x := 0, y := 0, z := 0, updated_at := 999 }

/-- C3 failing station record: its system_id 42 is absent from System. -/
def c3BadStation : StationRec :=
  { id := 900, name := "Lost Outpost", system_id := 42, distance_to_star := 100,
    has_blackmarket := false, max_landing_pad_size := "L", has_market := true,
    has_shipyard := false, updated_at := 5000, has_outfitting := false,
    has_rearm := false, has_refuel := true, has_repair := false,
    is_planetary := false, shipyard_updated_at := 0, outfitting_updated_at := 0,
    selling_ships := [], selling_modules := [] }

/-- A well-formed station record following the failing one (system 1 exists). -/
def c3GoodStation : StationRec :=
  { id := 901, name := "Abraham Lincoln", system_id := 1, distance_to_star := 500,
    has_blackmarket := false, max_landing_pad_size := "L", has_market := true,
    has_shipyard := true, updated_at := 6000, has_outfitting := true,
    has_rearm := true, has_refuel := true, has_repair := true,
    is_planetary := false, shipyard_updated_at := 6100, outfitting_updated_at := 6200,
    selling_ships := [], selling_modules := [] }

/-- Empty stations-pass state for the concrete scenarios. -/
def emptyStationsState : StationsState :=
  { stations := [], shipVendors := [], upgradeVendors := [],
    stationFlag := false, shipVendorFlag := false, upgradeVendorFlag := false,
    writes := 0 }

/-- The Ship table used by the C4 witness. -/
def c4Ships : List ShipRow :=
  [{ ship_id := 1, name := "Adder", cost := 87808, fdev_id := 72 },
   { ship_id := 2, name := "Anaconda", cost := 146969451, fdev_id := 73 },
   { ship_id := 3, name := "Eagle Mk. II", cost := 44800, fdev_id := 74 }]

/-- C4 witness state: the station currently stocks three ships. -/
def c4State : StationsState :=
  { stations := [], upgradeVendors := [],
    shipVendors :=
      [{ ship_id := 1, station_id := 77, modified := 100 },
       { ship_id := 2, station_id := 77, modified := 100 },
       { ship_id := 3, station_id := 77, modified := 100 },
       { ship_id := 1, station_id := 88, modified := 50 }],
    stationFlag := false, shipVendorFlag := false, upgradeVendorFlag := false,
    writes := 0 }

/-- C4 witness record: a strictly newer, shorter shipyard listing. -/
def c4Rec : StationRec :=
  { id := 77, name := "Jameson Memorial", system_id := 1, distance_to_star := 100,
    has_blackmarket := false, max_landing_pad_size := "L", has_market := true,
    has_shipyard := true, updated_at := 150, has_outfitting := false,
    has_rearm := true, has_refuel := true, has_repair := true,
    is_planetary := false, shipyard_updated_at := 200, outfitting_updated_at := 0,
    selling_ships := ["Adder", "Eagle Mk. II"], selling_modules := [] }

/-- The state the C3 good record alone would produce. -/
def c3GoodResult : StationsState :=
  { stations := [mkStationRow c3GoodStation], shipVendors := [],
    upgradeVendors := [], stationFlag := true, shipVendorFlag := false,
    upgradeVendorFlag := false, writes := 1 }

/-- The state the C4 witness's vendor block produces: the other station's row
kept, the two listed ships replacing the three stored ones. -/
def c4ResultState : StationsState :=
  { stations := [], upgradeVendors := [],
    shipVendors :=
      [{ ship_id := 1, station_id := 88, modified := 50 },
       { ship_id := 1, station_id := 77, modified := 200 },
       { ship_id := 3, station_id := 77, modified := 200 }],
    stationFlag := false, shipVendorFlag := true, upgradeVendorFlag := false,
    writes := 3 }

end EDDBlink

/-! # Theorems -/

namespace EDDBlink

/-- Helper: membership in a conditional singleton. -/
theorem mem_optSingleton {α : Type} {a x : α} {c : Prop} [Decidable c] :
    a ∈ (if c then [x] else []) ↔ (c ∧ a = x) := by
  by_cases hc : c
  · rw [if_pos hc]
    simp [hc]
  · rw [if_neg hc]
    simp [hc]

/-- Helper: a conditional singleton followed by a sublist of `L` is a sublist of
`x :: L`. -/
theorem optSingleton_append_sublist {α : Type} (c : Prop) [Decidable c] (x : α)
    {l L : List α} (h : l.Sublist L) : ((if c then [x] else []) ++ l).Sublist (x :: L) := by
  by_cases hc : c
  · rw [if_pos hc, List.singleton_append]
    exact h.cons₂ x
  · rw [if_neg hc, List.nil_append]
    exact h.cons x

/-- Helper: in a duplicate-free list, taking a sublist preserves the relative
order of two of its members, measured by `indexOf`. -/
theorem sublist_indexOf_lt {α : Type} [DecidableEq α] {l L : List α}
    (h : l.Sublist L) (hN : L.Nodup) {a b : α} (ha : a ∈ l) (hb : b ∈ l)
    (hab : L.indexOf a < L.indexOf b) : l.indexOf a < l.indexOf b := by
  induction h with
  | slnil => cases ha
  | @cons l₁ l₂ x h ih =>
      rw [List.nodup_cons] at hN
      have hax : x ≠ a := fun e => hN.1 (e ▸ h.subset ha)
      have hbx : x ≠ b := fun e => hN.1 (e ▸ h.subset hb)
      rw [List.indexOf_cons_ne _ hax, List.indexOf_cons_ne _ hbx] at hab
      exact ih hN.2 ha hb (Nat.succ_lt_succ_iff.mp hab)
  | @cons₂ l₁ l₂ x h ih =>
      rw [List.nodup_cons] at hN
      by_cases hbx : b = x
      · subst hbx
        rw [List.indexOf_cons_self] at hab
        exact absurd hab (Nat.not_lt_zero _)
      · by_cases hax : a = x
        · subst hax
          rw [List.indexOf_cons_self]
          rw [List.indexOf_cons_ne _ (fun e => hbx e.symm)]
          exact Nat.succ_pos _
        · have ha' := (List.mem_cons.mp ha).resolve_left hax
          have hb' := (List.mem_cons.mp hb).resolve_left hbx
          rw [List.indexOf_cons_ne _ (fun e => hax e.symm),
            List.indexOf_cons_ne _ (fun e => hbx e.symm)] at hab ⊢
          exact Nat.succ_lt_succ (ih hN.2 ha' hb' (Nat.succ_lt_succ_iff.mp hab))

/-- The station-implies-system property is established by `applyStationImplied`. -/
theorem applyStationImplied_prop (o : Options) :
    (applyStationImplied o).station = true → (applyStationImplied o).system = true := by
  unfold applyStationImplied
  by_cases hc : o.station = true
  · rw [if_pos hc]
    intro _
    rfl
  · rw [if_neg hc]
    intro h
    exact absurd h hc

/-- `applyAll` preserves the station-implies-system property. -/
theorem applyAll_prop (o : Options) (h : o.station = true → o.system = true) :
    (applyAll o).station = true → (applyAll o).system = true := by
  unfold applyAll
  by_cases hc : o.all = true
  · rw [if_pos hc]
    intro _
    rfl
  · rw [if_neg hc]
    exact h

/-- `applySkipvend` preserves the station-implies-system property. -/
theorem applySkipvend_prop (o : Options) (h : o.station = true → o.system = true) :
    (applySkipvend o).station = true → (applySkipvend o).system = true := by
  unfold applySkipvend
  by_cases hc : o.skipvend = true
  · rw [if_pos hc]
    exact h
  · rw [if_neg hc]
    exact h

/-- After resolution, selecting the station target always selects the system
target as well. -/
theorem resolveOptions_station_system (o : Options) :
    (resolveOptions o).station = true → (resolveOptions o).system = true := by
  unfold resolveOptions
  exact applySkipvend_prop _ (applyAll_prop _ (applyStationImplied_prop _))

/-- The executed pass list is a sublist of the canonical order, for any options
and any download outcomes. -/
theorem runPasses_sublist (o : Options) (d : Staleness) :
    (runPasses o d).Sublist canonicalPassOrder := by
  unfold runPasses canonicalPassOrder
  refine optSingleton_append_sublist _ _ ?_
  refine optSingleton_append_sublist _ _ ?_
  refine optSingleton_append_sublist _ _ ?_
  refine optSingleton_append_sublist _ _ ?_
  refine optSingleton_append_sublist _ _ ?_
  refine optSingleton_append_sublist _ _ ?_
  by_cases hc : (o.listings && (d.liveListings || o.force)) = true
  · rw [if_pos hc]
  · rw [if_neg hc]
    exact List.nil_sublist _

/-- C6: the selected kinds execute in the fixed order upgrade, ship, system,
station, item, listings (the executed passes always form a sublist of the
canonical dependency order); after option resolution the station target implies
the system target; and whenever the system and station passes both execute, the
system pass comes strictly before the station pass. -/
theorem c6_fixed_pass_order (o : Options) (d : Staleness) :
    (runPasses (resolveOptions o) d).Sublist canonicalPassOrder ∧
    ((resolveOptions o).station = true → (resolveOptions o).system = true) ∧
    (PassKind.systemPass ∈ runPasses (resolveOptions o) d →
      PassKind.stationPass ∈ runPasses (resolveOptions o) d →
      (runPasses (resolveOptions o) d).indexOf PassKind.systemPass <
        (runPasses (resolveOptions o) d).indexOf PassKind.stationPass) := by
  refine ⟨runPasses_sublist _ d, resolveOptions_station_system o, fun hs ht => ?_⟩
  exact sublist_indexOf_lt (runPasses_sublist _ d) (by decide) hs ht (by decide)

/-- Closed instance of C6: with every target selected and every file stale, the
system pass runs strictly before the station pass. -/
theorem c6_fixed_pass_order_witness :
    (runPasses (resolveOptions { all := true })
        ⟨true, true, true, true, true, true, true⟩).indexOf PassKind.systemPass <
      (runPasses (resolveOptions { all := true })
        ⟨true, true, true, true, true, true, true⟩).indexOf PassKind.stationPass :=
  (c6_fixed_pass_order { all := true } ⟨true, true, true, true, true, true, true⟩).2.2
    (by decide) (by decide)

/-- C5: with no operator options at all, the resolution leaves every target
de-selected — in particular the market-listings target stays off, contradicting
both the claim and the source's own comment ("If no options ... have been
passed, enable listings"); symmetrically, passing only the system target also
force-enables the listings target. The default-listings test is inverted. -/
theorem c5_default_listings_inverted :
    resolveOptions {} = ({} : Options) ∧
    (resolveOptions {}).listings = false ∧
    (resolveOptions { system := true }).listings = true := by
  refine ⟨by decide, by decide, by decide⟩

/-- C7 counterexample theorem: the claim's gate (with force set) and the code's
gate disagree at `c7Input`: the claim says fetch, the code does not fetch. -/
theorem c7_force_does_not_fetch :
    claimedFetchGate true c7Input = true ∧
    (downloadFile c7Input).updated = false ∧
    (downloadFile c7Input).transferred = false := by
  refine ⟨by decide, by decide, by decide⟩

/-- C7 amended: `downloadFile` reports "updated" and transfers exactly when the
file is the ship catalog, or the call is not a live-listings fetch in
(possibly probe-induced) fallback mode and either no local copy exists or the
local mtime is strictly older than the remote Last-Modified timestamp; the
force option plays no part in the gate (the callers instead run the import pass
despite a "not updated" result when force is set). -/
theorem c7_fetch_gate (i : DlInput) :
    ((downloadFile i).updated = true ↔
      (i.tag = FileTag.shipsFile ∨
        (¬((i.fallbackOpt || !i.mirrorUp) = true ∧ i.tag = FileTag.liveListingsFile) ∧
          (i.hasLocal = false ∨ i.localMtime < i.remoteModified)))) ∧
    (downloadFile i).transferred = (downloadFile i).updated := by
  rcases i with ⟨tag, fbo, mu, hl, lm, rm⟩
  by_cases hs : tag = FileTag.shipsFile
  · subst hs
    simp [downloadFile]
  · by_cases hfb : (fbo || !mu) = true ∧ tag = FileTag.liveListingsFile
    · have hdl : downloadFile ⟨tag, fbo, mu, hl, lm, rm⟩ =
          { updated := false, transferred := false, fallbackAfter := fbo || !mu } := by
        unfold downloadFile
        rw [if_neg hs, if_pos hfb]
      rw [hdl]
      refine ⟨⟨fun h => absurd (show false = true from h) (by decide), ?_⟩, rfl⟩
      rintro (h | ⟨hn, -⟩)
      · exact absurd h hs
      · exact absurd hfb hn
    · by_cases hloc : hl = true ∧ rm ≤ lm
      · have hdl : downloadFile ⟨tag, fbo, mu, hl, lm, rm⟩ =
            { updated := false, transferred := false, fallbackAfter := fbo || !mu } := by
          unfold downloadFile
          rw [if_neg hs, if_neg hfb, if_pos hloc]
        rw [hdl]
        refine ⟨⟨fun h => absurd (show false = true from h) (by decide), ?_⟩, rfl⟩
        rintro (h | ⟨-, h | h⟩)
        · exact absurd h hs
        · have h' : hl = false := h
          rw [h'] at hloc
          exact absurd hloc.1 (by decide)
        · exact absurd hloc.2 (Nat.not_le.mpr h)
      · have hdl : downloadFile ⟨tag, fbo, mu, hl, lm, rm⟩ =
            { updated := true, transferred := true, fallbackAfter := fbo || !mu } := by
          unfold downloadFile
          rw [if_neg hs, if_neg hfb, if_neg hloc]
        rw [hdl]
        refine ⟨⟨fun _ => ?_, fun _ => rfl⟩, rfl⟩
        right
        refine ⟨hfb, ?_⟩
        rcases Bool.eq_false_or_eq_true hl with h | h
        · right
          by_contra hlt
          exact hloc ⟨h, Nat.not_lt.mp hlt⟩
        · exact Or.inl h

/-- Closed instance of C7 (amended): the ship catalog is always fetched. -/
theorem c7_fetch_gate_witness : (downloadFile c7ShipsInput).updated = true :=
  (c7_fetch_gate c7ShipsInput).1.mpr (Or.inl rfl)

/-- C10: when the fallback option is set at the time the live-listings file is
requested, `downloadFile` reports not-updated and performs no transfer, and the
supplementary live-feed listings pass therefore executes exactly when the
listings target and the force option are both set. -/
theorem c10_fallback_skips_live (o : Options) (d : Staleness) (i : DlInput)
    (hfb : i.fallbackOpt = true) (htag : i.tag = FileTag.liveListingsFile) :
    (downloadFile i).updated = false ∧
    (downloadFile i).transferred = false ∧
    (PassKind.liveListingsPass ∈
        runPasses o { d with liveListings := (downloadFile i).updated } ↔
      (o.listings = true ∧ o.force = true)) := by
  have hdl : downloadFile i =
      { updated := false, transferred := false, fallbackAfter := true } := by
    unfold downloadFile
    rw [if_neg (by rw [htag]; intro h; cases h)]
    rw [if_pos ⟨by rw [hfb]; rfl, htag⟩]
    rw [hfb]
    rfl
  refine ⟨by rw [hdl], by rw [hdl], ?_⟩
  rw [hdl]
  unfold runPasses
  simp only [List.mem_append, mem_optSingleton]
  simp [Bool.and_eq_true]

/-- C1 (amended): for System, Station, ShipVendor and UpgradeVendor an incoming
record whose freshness timestamp is equal to or older than the stored one is a
complete no-op (same tables, flags and write count); for StationItem a strictly
older timestamp, or an equal timestamp from the live feed, is likewise a
complete no-op, but an equal timestamp from the bulk dump file rewrites the
matching rows' from_live flag to 0 (one write) while leaving every other field
unchanged. -/
theorem c1_stale_records_are_noops :
    (∀ (s : SystemsState) (rec : SystemRec) (row : SystemRow),
      s.table.find? (fun r => r.system_id == rec.id) = some row →
      rec.updated_at ≤ row.modified → importSystemRecord s rec = s) ∧
    (∀ (s : StationsState) (rec : StationRec) (row : StationRow),
      s.stations.find? (fun r => r.station_id == rec.id) = some row →
      rec.updated_at ≤ row.modified → stationRowStep s rec = s) ∧
    (∀ (sv : Bool) (ships : List ShipRow) (s : StationsState) (rec : StationRec),
      effectiveShipyardTS rec ≤ storedShipVendorTS s.shipVendors rec.id →
      shipVendorStep sv ships s rec = Except.ok s) ∧
    (∀ (uv : Bool) (upgrades : List UpgradeRow) (s : StationsState) (rec : StationRec),
      effectiveOutfittingTS rec ≤ storedUpgradeVendorTS s.upgradeVendors rec.id →
      upgradeVendorStep uv upgrades s rec = Except.ok s) ∧
    (∀ (isBulkDump : Bool) (tbl : List StationItemRow) (rec : ListingRec)
        (row : StationItemRow),
      tbl.find? (siKey rec.station_id rec.commodity_id) = some row →
      (rec.collected_at < row.modified ∨
          (rec.collected_at = row.modified ∧ isBulkDump = false) →
        importListingRecord isBulkDump tbl rec = (tbl, 0)) ∧
      (rec.collected_at = row.modified → isBulkDump = true →
        importListingRecord isBulkDump tbl rec =
          (tbl.map (fun r => if siKey rec.station_id rec.commodity_id r then
            { r with from_live := 0 } else r), 1))) := by
  refine ⟨?_, ?_, ?_, ?_, ?_⟩
  · intro s rec row hfind hle
    unfold importSystemRecord
    rw [hfind]
    exact if_neg (Nat.not_lt.mpr hle)
  · intro s rec row hfind hle
    unfold stationRowStep
    rw [hfind]
    exact if_neg (Nat.not_lt.mpr hle)
  · intro sv ships s rec hle
    unfold shipVendorStep
    by_cases hc : rec.has_shipyard = true ∧ sv = true
    · rw [if_pos hc, if_neg (Nat.not_lt.mpr hle)]
    · rw [if_neg hc]
  · intro uv upgrades s rec hle
    unfold upgradeVendorStep
    by_cases hc : rec.has_outfitting = true ∧ uv = true
    · rw [if_pos hc, if_neg (Nat.not_lt.mpr hle)]
    · rw [if_neg hc]
  · intro isBulkDump tbl rec row hfind
    constructor
    · intro hstale
      rcases hstale with hlt | ⟨heq, hbulk⟩
      · have h1 : ¬(rec.collected_at = row.modified ∧ isBulkDump = true) :=
          fun hc => absurd hc.1 (Nat.ne_of_lt hlt)
        have h2 : ¬(rec.collected_at > row.modified) := by omega
        unfold importListingRecord
        simp only [hfind, if_neg h1, if_neg h2]
      · have h1 : ¬(rec.collected_at = row.modified ∧ isBulkDump = true) :=
          fun hc => absurd (hbulk.symm.trans hc.2) (by decide)
        have h2 : ¬(rec.collected_at > row.modified) := by omega
        unfold importListingRecord
        simp only [hfind, if_neg h1, if_neg h2]
    · intro heq hbulk
      have h1 : rec.collected_at = row.modified ∧ isBulkDump = true := ⟨heq, hbulk⟩
      have h2 : ¬(rec.collected_at > row.modified) := by omega
      unfold importListingRecord
      simp only [hfind, if_pos h1, if_neg h2, hbulk]
      simp [heq]

/-- C1 counterexample: an incoming bulk-dump listing whose collected_at equals
the stored timestamp does write: it resets the stored row's from_live flag
from 1 to 0, so the stored row is not left unchanged. -/
theorem c1_equal_bulk_listing_writes :
    (importListingRecord true [c1Row] c1Rec).1 = [{ c1Row with from_live := 0 }] ∧
    (importListingRecord true [c1Row] c1Rec).1 ≠ [c1Row] ∧
    (importListingRecord true [c1Row] c1Rec).2 = 1 := by
  refine ⟨by decide, by decide, by decide⟩

/-- C1 witness: the spec's concrete scenario — Sol stored at epoch 1000, an
incoming record at epoch 999 is a complete no-op. -/
theorem c1_stale_records_are_noops_witness :
    importSystemRecord { table := [solRow], flag := false, writes := 0 } solStaleRec =
      { table := [solRow], flag := false, writes := 0 } :=
  c1_stale_records_are_noops.1 { table := [solRow], flag := false, writes := 0 }
    solStaleRec solRow (by decide) (by decide)

/-- C9: every row the listings reconciler writes carries from_live 0 — the
insert path and the newer-timestamp update path both force it to 0 whichever
source file is being imported, and the equal-timestamp bulk path resets
exactly from_live. -/
theorem c9_from_live_always_zero :
    (∀ (isBulkDump : Bool) (tbl : List StationItemRow) (rec : ListingRec),
      tbl.find? (siKey rec.station_id rec.commodity_id) = none →
      importListingRecord isBulkDump tbl rec = (tbl ++ [mkListingRow rec], 1) ∧
      (mkListingRow rec).from_live = 0) ∧
    (∀ (isBulkDump : Bool) (tbl : List StationItemRow) (rec : ListingRec)
        (row : StationItemRow),
      tbl.find? (siKey rec.station_id rec.commodity_id) = some row →
      row.modified < rec.collected_at →
      importListingRecord isBulkDump tbl rec =
        (tbl.map (fun r => if siKey rec.station_id rec.commodity_id r then
          mkListingRow rec else r), 1) ∧
      (mkListingRow rec).from_live = 0) ∧
    (∀ (tbl : List StationItemRow) (rec : ListingRec) (row : StationItemRow),
      tbl.find? (siKey rec.station_id rec.commodity_id) = some row →
      rec.collected_at = row.modified →
      importListingRecord true tbl rec =
        (tbl.map (fun r => if siKey rec.station_id rec.commodity_id r then
          { r with from_live := 0 } else r), 1)) := by
  refine ⟨?_, ?_, ?_⟩
  · intro isBulkDump tbl rec hfind
    refine ⟨?_, rfl⟩
    unfold importListingRecord
    simp only [hfind]
  · intro isBulkDump tbl rec row hfind hlt
    refine ⟨?_, rfl⟩
    have h1 : ¬(rec.collected_at = row.modified ∧ isBulkDump = true) :=
      fun hc => absurd hc.1.symm (Nat.ne_of_lt hlt)
    have h2 : rec.collected_at > row.modified := hlt
    unfold importListingRecord
    simp only [hfind, if_neg h1, if_pos h2]
  · intro tbl rec row hfind heq
    have h1 : rec.collected_at = row.modified ∧ (true : Bool) = true := ⟨heq, rfl⟩
    have h2 : ¬(rec.collected_at > row.modified) := by omega
    unfold importListingRecord
    simp only [hfind, if_pos h1, if_neg h2]
    simp [heq]

/-- C3 (code evaluated at the failing input): in a stations pass whose System
table knows only Sol, a record referencing the absent system 42 raises the
uncaught lookup error and aborts the pass, so the following well-formed record
is never processed — while that same well-formed record alone imports fine. -/
theorem c3_station_pass_aborts :
    importStations false false [solRow] [] [] emptyStationsState
        [c3BadStation, c3GoodStation] =
      Except.error (StationImportError.missingSystem 42) ∧
    importStations false false [solRow] [] [] emptyStationsState [c3GoodStation] =
      Except.ok c3GoodResult := by
  exact ⟨rfl, rfl⟩

/-- Helper: a successful `insertShipVendors` run appends exactly the resolved
listing rows to its accumulator. -/
theorem insertShipVendors_ok {ships : List ShipRow} {station_id modified : Nat} :
    ∀ {names : List String} {acc out : List ShipVendorRow},
    insertShipVendors ships station_id modified acc names = Except.ok out →
    out = acc ++ names.map (fun nm =>
      { ship_id := resolvedShipId ships nm, station_id := station_id,
        modified := modified }) := by
  intro names
  induction names with
  | nil =>
      intro acc out h
      cases h
      simp
  | cons nm rest ih =>
      intro acc out h
      unfold insertShipVendors at h
      cases hfind : ships.find? (fun r => r.name == normalizeShipName nm) with
      | none =>
          simp only [hfind] at h
          cases h
      | some shipRow =>
          simp only [hfind] at h
          by_cases hdup : (acc.find? (fun v =>
              v.ship_id == shipRow.ship_id && v.station_id == station_id)).isSome = true
          · rw [if_pos hdup] at h
            cases h
          · rw [if_neg hdup] at h
            rw [ih h]
            simp [resolvedShipId, hfind]

/-- Helper: a successful `insertUpgradeVendors` run appends exactly the
listing's rows (with the cost subselect snapshot) to its accumulator. -/
theorem insertUpgradeVendors_ok {upgrades : List UpgradeRow} {station_id modified : Nat} :
    ∀ {uids : List Nat} {acc out : List UpgradeVendorRow},
    insertUpgradeVendors upgrades station_id modified acc uids = Except.ok out →
    out = acc ++ uids.map (fun uid =>
      { upgrade_id := uid, station_id := station_id,
        cost := (upgrades.find? (fun u => u.upgrade_id == uid)).map (fun u => u.cost),
        modified := modified }) := by
  intro uids
  induction uids with
  | nil =>
      intro acc out h
      cases h
      simp
  | cons uid rest ih =>
      intro acc out h
      unfold insertUpgradeVendors at h
      by_cases hdup : (acc.find? (fun v =>
          v.upgrade_id == uid && v.station_id == station_id)).isSome = true
      · rw [if_pos hdup] at h
        cases h
      · rw [if_neg hdup] at h
        rw [ih h]
        simp

/-- C4: when the vendor option is on, the station has the facility, and the
effective (defaulted) feed timestamp strictly exceeds the stored vendor
timestamp, a successful vendor block replaces the station's vendor rows as a
set: afterwards the rows scoped to the station are exactly the listing's
resolved rows (in particular a shorter listing leaves exactly that shorter
set, with no orphans), rows of other stations are untouched, and the vendor
flag is set; symmetrically for outfitting. -/
theorem c4_vendor_replace_as_set :
    (∀ (ships : List ShipRow) (s s' : StationsState) (rec : StationRec),
      rec.has_shipyard = true →
      storedShipVendorTS s.shipVendors rec.id < effectiveShipyardTS rec →
      shipVendorStep true ships s rec = Except.ok s' →
      s'.shipVendors.filter (fun v => v.station_id == rec.id) =
        expectedShipVendorRows ships rec ∧
      s'.shipVendors.filter (fun v => !(v.station_id == rec.id)) =
        s.shipVendors.filter (fun v => !(v.station_id == rec.id)) ∧
      s'.shipVendorFlag = true) ∧
    (∀ (upgrades : List UpgradeRow) (s s' : StationsState) (rec : StationRec),
      rec.has_outfitting = true →
      storedUpgradeVendorTS s.upgradeVendors rec.id < effectiveOutfittingTS rec →
      upgradeVendorStep true upgrades s rec = Except.ok s' →
      s'.upgradeVendors.filter (fun v => v.station_id == rec.id) =
        expectedUpgradeVendorRows upgrades rec ∧
      s'.upgradeVendors.filter (fun v => !(v.station_id == rec.id)) =
        s.upgradeVendors.filter (fun v => !(v.station_id == rec.id)) ∧
      s'.upgradeVendorFlag = true) := by
  constructor
  · intro ships s s' rec hsy hgate hok
    unfold shipVendorStep at hok
    rw [if_pos ⟨hsy, rfl⟩, if_pos hgate] at hok
    cases hins : insertShipVendors ships rec.id (effectiveShipyardTS rec)
        (s.shipVendors.filter (fun v => !(v.station_id == rec.id)))
        rec.selling_ships with
    | error e =>
        simp only [hins] at hok
        cases hok
    | ok vendors =>
        simp only [hins] at hok
        cases hok
        have hv := insertShipVendors_ok hins
        subst hv
        refine ⟨?_, ?_, rfl⟩
        · rw [List.filter_append]
          have h1 : (s.shipVendors.filter
              (fun v => !(v.station_id == rec.id))).filter
                (fun v => v.station_id == rec.id) = [] := by
            rw [List.filter_filter]
            apply List.filter_eq_nil_iff.mpr
            intro v hv
            simp
          have h2 : (rec.selling_ships.map (fun nm =>
              ({ ship_id := resolvedShipId ships nm, station_id := rec.id,
                 modified := effectiveShipyardTS rec } : ShipVendorRow))).filter
                (fun v => v.station_id == rec.id) =
              rec.selling_ships.map (fun nm =>
                ({ ship_id := resolvedShipId ships nm, station_id := rec.id,
                   modified := effectiveShipyardTS rec } : ShipVendorRow)) := by
            apply List.filter_eq_self.mpr
            intro v hv
            rcases List.mem_map.mp hv with ⟨nm, -, hnm⟩
            rw [← hnm]
            simp
          rw [h1, h2, List.nil_append]
          rfl
        · rw [List.filter_append]
          have h1 : (s.shipVendors.filter
              (fun v => !(v.station_id == rec.id))).filter
                (fun v => !(v.station_id == rec.id)) =
              s.shipVendors.filter (fun v => !(v.station_id == rec.id)) := by
            rw [List.filter_filter]
            apply List.filter_congr
            intro v hv
            simp
          have h2 : (rec.selling_ships.map (fun nm =>
              ({ ship_id := resolvedShipId ships nm, station_id := rec.id,
                 modified := effectiveShipyardTS rec } : ShipVendorRow))).filter
                (fun v => !(v.station_id == rec.id)) = [] := by
            apply List.filter_eq_nil_iff.mpr
            intro v hv
            rcases List.mem_map.mp hv with ⟨nm, -, hnm⟩
            rw [← hnm]
            simp
          rw [h1, h2, List.append_nil]
  · intro upgrades s s' rec hof hgate hok
    unfold upgradeVendorStep at hok
    rw [if_pos ⟨hof, rfl⟩, if_pos hgate] at hok
    cases hins : insertUpgradeVendors upgrades rec.id (effectiveOutfittingTS rec)
        (s.upgradeVendors.filter (fun v => !(v.station_id == rec.id)))
        rec.selling_modules with
    | error e =>
        simp only [hins] at hok
        cases hok
    | ok vendors =>
        simp only [hins] at hok
        cases hok
        have hv := insertUpgradeVendors_ok hins
        subst hv
        refine ⟨?_, ?_, rfl⟩
        · rw [List.filter_append]
          have h1 : (s.upgradeVendors.filter
              (fun v => !(v.station_id == rec.id))).filter
                (fun v => v.station_id == rec.id) = [] := by
            rw [List.filter_filter]
            apply List.filter_eq_nil_iff.mpr
            intro v hv
            simp
          have h2 : (rec.selling_modules.map (fun uid =>
              ({ upgrade_id := uid, station_id := rec.id,
                 cost := (upgrades.find? (fun u => u.upgrade_id == uid)).map
                   (fun u => u.cost),
                 modified := effectiveOutfittingTS rec } : UpgradeVendorRow))).filter
                (fun v => v.station_id == rec.id) =
              rec.selling_modules.map (fun uid =>
                ({ upgrade_id := uid, station_id := rec.id,
                   cost := (upgrades.find? (fun u => u.upgrade_id == uid)).map
                     (fun u => u.cost),
                   modified := effectiveOutfittingTS rec } : UpgradeVendorRow)) := by
            apply List.filter_eq_self.mpr
            intro v hv
            rcases List.mem_map.mp hv with ⟨uid, -, huid⟩
            rw [← huid]
            simp
          rw [h1, h2, List.nil_append]
          rfl
        · rw [List.filter_append]
          have h1 : (s.upgradeVendors.filter
              (fun v => !(v.station_id == rec.id))).filter
                (fun v => !(v.station_id == rec.id)) =
              s.upgradeVendors.filter (fun v => !(v.station_id == rec.id)) := by
            rw [List.filter_filter]
            apply List.filter_congr
            intro v hv
            simp
          have h2 : (rec.selling_modules.map (fun uid =>
              ({ upgrade_id := uid, station_id := rec.id,
                 cost := (upgrades.find? (fun u => u.upgrade_id == uid)).map
                   (fun u => u.cost),
                 modified := effectiveOutfittingTS rec } : UpgradeVendorRow))).filter
                (fun v => !(v.station_id == rec.id)) = [] := by
            apply List.filter_eq_nil_iff.mpr
            intro v hv
            rcases List.mem_map.mp hv with ⟨uid, -, huid⟩
            rw [← huid]
            simp
          rw [h1, h2, List.append_nil]

/-- C4 witness: a station stocking three ships receives a strictly newer
two-ship listing; exactly those two resolved rows remain for the station and
the other station's row survives. -/
theorem c4_vendor_replace_as_set_witness :
    c4ResultState.shipVendors.filter (fun v => v.station_id == c4Rec.id) =
      expectedShipVendorRows c4Ships c4Rec ∧
    c4ResultState.shipVendors.filter (fun v => !(v.station_id == c4Rec.id)) =
      c4State.shipVendors.filter (fun v => !(v.station_id == c4Rec.id)) ∧
    c4ResultState.shipVendorFlag = true :=
  c4_vendor_replace_as_set.1 c4Ships c4State c4ResultState c4Rec rfl
    (by decide) rfl

/-- C9 witness: a live-feed insert of a fresh row carries from_live 0. -/
theorem c9_from_live_always_zero_witness :
    importListingRecord false [] c1Rec = ([] ++ [mkListingRow c1Rec], 1) ∧
    (mkListingRow c1Rec).from_live = 0 :=
  c9_from_live_always_zero.1 false [] c1Rec rfl

/-- C10 witness at a concrete fallback-mode input. -/
theorem c10_fallback_skips_live_witness :
    (downloadFile c10Input).updated = false ∧
    (downloadFile c10Input).transferred = false ∧
    (PassKind.liveListingsPass ∈
        runPasses { listings := true }
          { c10Staleness with liveListings := (downloadFile c10Input).updated } ↔
      (({ listings := true } : Options).listings = true ∧
        ({ listings := true } : Options).force = true)) :=
  c10_fallback_skips_live { listings := true } c10Staleness c10Input rfl rfl

/-! ### Generic keyed-upsert lemmas (for the kinds without a freshness field) -/

section KeyedUpsertLemmas

variable {ρ α : Type} {key : ρ → Nat} {rkey : α → Nat} {upd : α → ρ → ρ} {ins : α → ρ}

end KeyedUpsertLemmas

/-! ### Second-pass behaviour of the per-kind passes (C2) -/

/-- Unfolding equation of the assignment loop on a non-empty list. -/
theorem uiAssign_cons (cat_id ui_order : Nat) (t : String × Nat × Nat)
    (rest : List (String × Nat × Nat)) :
    uiAssign cat_id ui_order (t :: rest) =
      if t.2.1 ≠ cat_id then (t.2.2, 1) :: uiAssign t.2.1 1 rest
      else (t.2.2, ui_order + 1) :: uiAssign cat_id (ui_order + 1) rest := rfl

/-- The assignment loop emits one pair per sorted triple; position `i` receives
the count of earlier same-category triples plus one, except that a run whose
category equals the incoming previous-category seed continues from the incoming
counter instead of restarting at 1. -/
theorem uiAssign_spec (l : List (String × Nat × Nat)) :
    ∀ (prev ord : Nat),
    List.Pairwise (fun x y => x.2.1 ≤ y.2.1) l →
    (∀ t ∈ l, prev ≤ t.2.1) →
    ∀ (i : Nat) (u : String × Nat × Nat), l[i]? = some u →
    (uiAssign prev ord l)[i]? =
      some (u.2.2,
        if u.2.1 = prev
        then ord + 1 + (l.take i).countP (fun t => t.2.1 == u.2.1)
        else 1 + (l.take i).countP (fun t => t.2.1 == u.2.1)) := by
  induction l with
  | nil =>
      intro prev ord _ _ i u h
      simp at h
  | cons t rest ih =>
      intro prev ord hpair hprev i u hu
      rw [List.pairwise_cons] at hpair
      by_cases hr : t.2.1 = prev
      · rw [uiAssign_cons, if_neg (fun h => h hr)]
        cases i with
        | zero =>
            rw [List.getElem?_cons_zero] at hu
            injection hu with hu
            subst hu
            rw [List.getElem?_cons_zero, if_pos hr]
            simp
        | succ j =>
            rw [List.getElem?_cons_succ] at hu
            rw [List.getElem?_cons_succ]
            rw [ih prev (ord + 1) hpair.2 (fun y hy => hr ▸ hpair.1 y hy) j u hu]
            simp only [Option.some.injEq, Prod.mk.injEq, true_and]
            rw [List.take_succ_cons, List.countP_cons]
            by_cases hup : u.2.1 = prev
            · rw [if_pos hup, if_pos hup,
                show (t.2.1 == u.2.1) = true from beq_iff_eq.mpr (hr.trans hup.symm),
                if_pos rfl]
              omega
            · rw [if_neg hup, if_neg hup,
                show (t.2.1 == u.2.1) = false from
                  beq_eq_false_iff_ne.mpr (fun e => hup (e.symm.trans hr)),
                if_neg (by decide)]
              omega
      · rw [uiAssign_cons, if_pos hr]
        cases i with
        | zero =>
            rw [List.getElem?_cons_zero] at hu
            injection hu with hu
            subst hu
            rw [List.getElem?_cons_zero, if_neg hr]
            simp
        | succ j =>
            rw [List.getElem?_cons_succ] at hu
            rw [List.getElem?_cons_succ]
            rw [ih t.2.1 1 hpair.2 (fun y hy => hpair.1 y hy) j u hu]
            simp only [Option.some.injEq, Prod.mk.injEq, true_and]
            rw [List.take_succ_cons, List.countP_cons]
            have humem : u ∈ rest := by
              rcases List.getElem?_eq_some_iff.mp hu with ⟨hlt, rfl⟩
              exact List.getElem_mem hlt
            by_cases hut : u.2.1 = t.2.1
            · rw [if_pos hut,
                if_neg (fun h => hr (hut.symm.trans h)),
                show (t.2.1 == u.2.1) = true from beq_iff_eq.mpr hut.symm,
                if_pos rfl]
              omega
            · have hup : u.2.1 ≠ prev := fun h =>
                hr (Nat.le_antisymm (h ▸ hpair.1 u humem) (hprev t (List.mem_cons_self t rest)))
              rw [if_neg hut, if_neg hup,
                show (t.2.1 == u.2.1) = false from
                  beq_eq_false_iff_ne.mpr (fun e => hut e.symm),
                if_neg (by decide)]
              omega

/-- The emitted assignment ids are the sorted triples' item ids, in order. -/
theorem uiAssign_map_fst (l : List (String × Nat × Nat)) :
    ∀ (prev ord : Nat), (uiAssign prev ord l).map Prod.fst = l.map (fun t => t.2.2) := by
  induction l with
  | nil =>
      intro prev ord
      rfl
  | cons t rest ih =>
      intro prev ord
      unfold uiAssign
      by_cases h : t.2.1 ≠ prev
      · rw [if_pos h, List.map_cons, List.map_cons, ih]
      · rw [if_neg h, List.map_cons, List.map_cons, ih]

/-- A row whose id no assignment mentions came through `applyUiAssign` from the
input table. -/
theorem applyUiAssign_mem_unassigned :
    ∀ (assigns : List (Nat × Nat)) (items : List ItemRow) (r : ItemRow),
    r ∈ applyUiAssign items assigns → (∀ p ∈ assigns, p.1 ≠ r.item_id) → r ∈ items := by
  intro assigns
  induction assigns with
  | nil =>
      intro items r h _
      exact h
  | cons q rest ih =>
      intro items r hr hall
      have hr2 := ih _ r hr (fun p hp => hall p (List.mem_cons_of_mem q hp))
      rcases List.mem_map.mp hr2 with ⟨y, hy, rfl⟩
      by_cases hm : (y.item_id == q.1) = true
      · exfalso
        apply hall q (List.mem_cons_self q rest)
        rw [if_pos hm]
        exact (beq_iff_eq.mp hm).symm
      · rw [if_neg hm]
        exact hy

/-- With duplicate-free assignment ids, a surviving row carrying an assigned id
holds exactly that assignment's ui_order value. -/
theorem applyUiAssign_assigned :
    ∀ (assigns : List (Nat × Nat)) (items : List ItemRow) (p : Nat × Nat),
    (assigns.map Prod.fst).Nodup → p ∈ assigns →
    ∀ r ∈ applyUiAssign items assigns, r.item_id = p.1 → r.ui_order = p.2 := by
  intro assigns
  induction assigns with
  | nil =>
      intro items p _ hp
      cases hp
  | cons q rest ih =>
      intro items p hnodup hp r hr hrid
      rw [List.map_cons, List.nodup_cons] at hnodup
      rcases List.mem_cons.mp hp with rfl | hp2
      · have hr2 : r ∈ items.map (fun x =>
            if x.item_id == p.1 then { x with ui_order := p.2 } else x) :=
          applyUiAssign_mem_unassigned rest _ r hr
            (fun p2 hp2 e => hnodup.1 (List.mem_map.mpr ⟨p2, hp2, e.trans hrid⟩))
        rcases List.mem_map.mp hr2 with ⟨y, hy, rfl⟩
        by_cases hm : (y.item_id == p.1) = true
        · rw [if_pos hm]
        · rw [if_neg hm] at hrid
          exact absurd (beq_iff_eq.mpr hrid) hm
      · exact ih _ p hnodup.2 hp2 r hr hrid

/-- C8 (amended): the recomputation is deterministic and assigns a dense
1-based per-category rank in the category-then-name ordering, provided no
category in the catalog has provider id 0 — the sentinel initial value of the
loop's previous-category variable, under which the first category-0 item would
get rank 2 instead of 1 (see the counterexample). Stated positionally: when
the triple at position `i` of the sorted projection belongs to item `u.2.2`,
every result row with that item id holds one plus the number of
earlier same-category triples. -/
theorem c8_ui_order_dense_rank (items : List ItemRow)
    (hcat : ∀ r ∈ items, r.category_id ≠ 0)
    (hids : (items.map ItemRow.item_id).Nodup)
    (i : Nat) (u : String × Nat × Nat)
    (hu : (List.insertionSort tripleOrder (items.map itemTriple))[i]? = some u) :
    ∀ r ∈ uiOrderPass items, r.item_id = u.2.2 →
    r.ui_order =
      1 + ((List.insertionSort tripleOrder (items.map itemTriple)).take i).countP
        (fun t => t.2.1 == u.2.1) := by
  intro r hr hrid
  have hperm := List.perm_insertionSort tripleOrder (items.map itemTriple)
  have hsorted : List.Pairwise (fun x y : String × Nat × Nat => x.2.1 ≤ y.2.1)
      (List.insertionSort tripleOrder (items.map itemTriple)) := by
    refine (List.sorted_insertionSort tripleOrder (items.map itemTriple)).imp ?_
    intro a b hab
    rcases hab with h | ⟨h, -⟩
    · exact Nat.le_of_lt h
    · exact Nat.le_of_eq h
  have humem : u ∈ List.insertionSort tripleOrder (items.map itemTriple) := by
    rcases List.getElem?_eq_some_iff.mp hu with ⟨hlt, rfl⟩
    exact List.getElem_mem hlt
  have hu0 : u.2.1 ≠ 0 := by
    rcases List.mem_map.mp (hperm.mem_iff.mp humem) with ⟨q, hq, rfl⟩
    exact hcat q hq
  have hassign := uiAssign_spec (List.insertionSort tripleOrder (items.map itemTriple))
    0 1 hsorted (fun t _ => Nat.zero_le _) i u hu
  rw [if_neg hu0] at hassign
  have hpmem : (u.2.2,
      1 + ((List.insertionSort tripleOrder (items.map itemTriple)).take i).countP
        (fun t => t.2.1 == u.2.1)) ∈
      uiAssign 0 1 (List.insertionSort tripleOrder (items.map itemTriple)) := by
    rcases List.getElem?_eq_some_iff.mp hassign with ⟨hlt, heq⟩
    rw [← heq]
    exact List.getElem_mem hlt
  have hnodupA : ((uiAssign 0 1
      (List.insertionSort tripleOrder (items.map itemTriple))).map Prod.fst).Nodup := by
    rw [uiAssign_map_fst]
    refine ((hperm.map (fun t : String × Nat × Nat => t.2.2)).nodup_iff).mpr ?_
    rw [List.map_map]
    exact hids
  exact applyUiAssign_assigned _ items _ hnodupA hpmem r hr hrid

/-- C8 witness: on the spec's two-item catalog (Zinc and Beryllium, both in
category 5), Beryllium occupies sorted position 0 and ends with ui_order 1,
Zinc occupies position 1 and ends with ui_order 2; both rows survive the pass. -/
theorem c8_ui_order_dense_rank_witness :
    c8BerylliumRow ∈ uiOrderPass c8Catalog ∧
    c8ZincRow ∈ uiOrderPass c8Catalog ∧
    c8BerylliumRow.ui_order =
      1 + ((List.insertionSort tripleOrder (c8Catalog.map itemTriple)).take 0).countP
        (fun t => t.2.1 == (("Beryllium", 5, 11) : String × Nat × Nat).2.1) ∧
    c8ZincRow.ui_order =
      1 + ((List.insertionSort tripleOrder (c8Catalog.map itemTriple)).take 1).countP
        (fun t => t.2.1 == (("Zinc", 5, 10) : String × Nat × Nat).2.1) :=
  ⟨by decide, by decide,
   c8_ui_order_dense_rank c8Catalog (by decide) (by decide) 0 ("Beryllium", 5, 11)
     (by decide) c8BerylliumRow (by decide) (by decide),
   c8_ui_order_dense_rank c8Catalog (by decide) (by decide) 1 ("Zinc", 5, 10)
     (by decide) c8ZincRow (by decide) (by decide)⟩

/-- C8 counterexample: for a catalog whose only item sits in a category with
provider id 0, the claimed dense rank (ui_order 1 for the lone item) fails —
the pass leaves the item with ui_order 2, because the loop's previous-category
variable starts at 0 and so never sees a category change. -/
theorem c8_category_zero_breaks_rank :
    ¬c8ClaimedRankHolds c8BadItems ∧
    (uiOrderPass c8BadItems).map ItemRow.ui_order = [2] := by
  refine ⟨by decide, by decide⟩

end EDDBlink
